import Mathlib

/-!
Verification of the EasyFoodBack recipe proxy backend (src/index.js).

The whole observable behaviour of the repository is the Express handler for
POST /api/receta.  We embed it as a pure function of three inputs: the
`ingredientes` field of the request body, the process credential
`OPENROUTER_API_KEY`, and the behaviour of the upstream OpenRouter endpoint
(a function from the outbound request to its outcome).  The handler returns
the HTTP response together with the outbound request it issued, if any, so
that "no outbound call is made" is expressible.
-/

namespace EasyFood

/-- The message object inside one choice of the upstream completion body
(src/index.js line 84 reads `message.content`). -/
structure UpMessage where
  content : String
deriving DecidableEq, Repr

/-- One element of the `choices` array of the upstream completion body. -/
structure Choice where
  message : UpMessage
deriving DecidableEq, Repr

/-- The JSON body of a successful upstream completion response
(`response.data` in src/index.js). -/
structure UpstreamData where
  choices : List Choice
deriving DecidableEq, Repr

/-- The `error` object of a structured upstream error body; its `message`
field may be absent (src/index.js line 97). -/
structure ErrObj where
  message : Option String
deriving DecidableEq, Repr

/-- The JSON body attached to an upstream error response
(`error.response.data` in src/index.js); the `error` field may be absent. -/
structure ErrBody where
  error : Option ErrObj
deriving DecidableEq, Repr

/-- The shapes an axios failure can take, as distinguished by the catch block
of src/index.js lines 88-108: an error response from the server (with status
and optional parsed body), a request that got no response at all, or any
other error carrying only a message. -/
inductive AxiosError where
  | response (status : Nat) (data : Option ErrBody)
  | request
  | other (message : String)
deriving DecidableEq, Repr

/-- Outcome of the outbound `axios.post` call: a resolved response with a
body, or a thrown `AxiosError`. -/
inductive UpstreamResult where
  | ok (data : UpstreamData)
  | err (e : AxiosError)
deriving DecidableEq, Repr

/-- One chat message of the outbound request payload
(src/index.js line 69). -/
structure ChatMessage where
  role : String
  content : String
deriving DecidableEq, Repr

/-- The outbound HTTP request the handler sends to OpenRouter
(src/index.js lines 65-81): URL, JSON payload fields and headers. -/
structure OutboundRequest where
  url : String
  model : String
  messages : List ChatMessage
  authorization : String
  contentType : String
  httpReferer : String
  xTitle : String
deriving DecidableEq, Repr

/-- The JSON body of the handler's HTTP response: either `{ receta }`
(line 86) or `{ error }` (lines 47, 52, 110). -/
inductive ResponseBody where
  | receta (text : String)
  | error (msg : String)
deriving DecidableEq, Repr

/-- An HTTP response of the handler: status code and JSON body. -/
structure HttpResponse where
  status : Nat
  body : ResponseBody
deriving DecidableEq, Repr

/-- JavaScript truthiness of an optional string value: an absent or null
field and the empty string are falsy.  Used by `!ingredientes` (line 46)
and `!OPENROUTER_API_KEY` (line 51) of src/index.js. -/
def jsTruthy : Option String → Bool
  | none => false
  | some s => !s.isEmpty

/-- The fixed text of the prompt template before the interpolation point. -/
def promptBefore : String :=
  "\nTengo los siguientes ingredientes en casa: "

/-- The fixed text of the prompt template after the interpolation point. -/
def promptAfter : String :=
  ".\nPor favor, dame una receta clara y fácil de preparar usando estos ingredientes.\nIncluye una lista de pasos para cocinar, tiempo estimado y consejos útiles.\nPor favor, escribe sin errores ortográficos ni gramaticales.\n"

/-- The prompt template literal of src/index.js lines 56-61, with the
`ingredientes` string interpolated. -/
def prompt (ingredientes : String) : String :=
  "\nTengo los siguientes ingredientes en casa: " ++ ingredientes ++
  ".\nPor favor, dame una receta clara y fácil de preparar usando estos ingredientes.\nIncluye una lista de pasos para cocinar, tiempo estimado y consejos útiles.\nPor favor, escribe sin errores ortográficos ni gramaticales.\n"

/-- The outbound request built by src/index.js lines 65-81 from the
ingredient string and the credential. -/
def mkOutboundRequest (ingredientes apiKey : String) : OutboundRequest :=
  ⟨"https://openrouter.ai/api/v1/chat/completions",
    "google/gemma-2b-it",
    [⟨"user", prompt ingredientes⟩],
    "Bearer " ++ apiKey,
    "application/json",
    "http://localhost",
    "EasyFoodAI"⟩

/-- The JavaScript condition chain
`error.response.data && error.response.data.error && error.response.data.error.message`
of src/index.js line 97: yields the structured upstream message exactly when
every link is present and the message itself is truthy (non-empty). -/
def structuredMessage : Option ErrBody → Option String
  | none => none
  | some body =>
    match body.error with
    | none => none
    | some eobj =>
      match eobj.message with
      | none => none
      | some m => if m.isEmpty then none else some m

/-- The error classification of the catch block, src/index.js lines 92-108:
401 responses map to the authentication message, responses with a structured
`error.message` embed that message, other responses report their status
code, a request without response reports a connectivity problem, and any
other error reports its own message. -/
def classifyError : AxiosError → String
  | .response status data =>
    if status = 401 then
      "Error de autenticación con la API de OpenRouter. Verifica tu API Key y saldo."
    else
      match structuredMessage data with
      | some m => "Error de la API de OpenRouter: " ++ m
      | none => "Error del servidor de OpenRouter: Código " ++ toString status ++ "."
  | .request =>
    "No se pudo conectar con el servidor de OpenRouter. Revisa la conectividad de tu backend."
  | .other m => "Error en la solicitud: " ++ m

/-- The message of the TypeError raised by the JavaScript runtime when
`response.data.choices[0]` is `undefined` and `.message` is read from it on
src/index.js line 84 (quotation marks of the runtime text omitted). -/
def typeErrorEmptyChoices : String :=
  "Cannot read properties of undefined (reading message)"

/-- Models the access `response.data.choices[0].message.content` of
src/index.js line 84: with a non-empty choices array it yields the first
content; with an empty array the property read throws a TypeError, an error
value that carries neither a response nor a request. -/
def extractReceta : UpstreamData → Except AxiosError String
  | ⟨[]⟩ => .error (.other typeErrorEmptyChoices)
  | ⟨c :: _⟩ => .ok c.message.content

/-- How the try block of src/index.js lines 64-111 turns the outcome of the
upstream call into an HTTP response: a well-formed success yields 200 with
the extracted recipe, and every thrown error yields 500 with the classified
message. -/
def processUpstream : UpstreamResult → HttpResponse
  | .ok data =>
    match extractReceta data with
    | .ok receta => ⟨200, .receta receta⟩
    | .error e => ⟨500, .error (classifyError e)⟩
  | .err e => ⟨500, .error (classifyError e)⟩

/-- The POST /api/receta handler, src/index.js lines 42-112.  Inputs: the
`ingredientes` field of the request body, the process credential, and the
upstream behaviour.  Output: the HTTP response sent, paired with the
outbound request issued (`none` when no outbound call is made). -/
def handleReceta (ingredientes apiKey : Option String)
    (upstream : OutboundRequest → UpstreamResult) :
    HttpResponse × Option OutboundRequest :=
  if !(jsTruthy ingredientes) then
    (⟨400, .error "Faltan ingredientes en la solicitud."⟩, none)
  else if !(jsTruthy apiKey) then
    (⟨500, .error "Error interno del servidor: API Key no disponible."⟩, none)
  else
    let outb := mkOutboundRequest (ingredientes.getD "") (apiKey.getD "")
    (processUpstream (upstream outb), some outb)

/-- `m` occurs verbatim as a contiguous substring of `t`. -/
def textContains (t m : String) : Prop :=
  m.data <:+: t.data

instance (t m : String) : Decidable (textContains t m) :=
  inferInstanceAs (Decidable (m.data <:+: t.data))

theorem jsTruthy_some_of_ne (s : String) (h : s ≠ "") :
    jsTruthy (some s) = true := by
  have hie : s.isEmpty = false := by
    cases hb : s.isEmpty with
    | false => rfl
    | true => exact absurd ((String.isEmpty_iff s).mp hb) h
  simp [jsTruthy, hie]

theorem textContains_empty (t : String) : textContains t "" :=
  ⟨[], t.data, by simp⟩

theorem textContains_refl_append (pre m : String) : textContains (pre ++ m) m :=
  ⟨pre.data, [], by simp⟩

theorem classifyError_structured (status : Nat) (hst : status ≠ 401)
    (m : String) (hm : m.isEmpty = false) :
    classifyError (.response status (some ⟨some ⟨some m⟩⟩))
      = "Error de la API de OpenRouter: " ++ m := by
  simp [classifyError, structuredMessage, hst, hm]

/-- C1: for every non-empty `ingredientes` string, when the credential is set
and the upstream call succeeds with a body containing at least one choice,
the handler responds 200 with body `{ receta }` where `receta` is exactly the
first choice's message content, unmodified. -/
theorem receta_first_choice_verbatim (ing key : String) (hing : ing ≠ "")
    (hkey : key ≠ "") (upstream : OutboundRequest → UpstreamResult)
    (c : Choice) (cs : List Choice)
    (hup : upstream (mkOutboundRequest ing key) = .ok ⟨c :: cs⟩) :
    (handleReceta (some ing) (some key) upstream).1
      = ⟨200, .receta c.message.content⟩ := by
  unfold handleReceta
  simp [jsTruthy_some_of_ne _ hing, jsTruthy_some_of_ne _ hkey, hup,
    processUpstream, extractReceta]

/-- Witness for C1: the concrete scenario of the spec, ingredients
"huevo, tomate" and a stubbed upstream returning one choice. -/
theorem receta_first_choice_verbatim_witness :
    ("huevo, tomate" : String) ≠ "" ∧ ("sk-test" : String) ≠ "" ∧
    (handleReceta (some "huevo, tomate") (some "sk-test")
        (fun _ => .ok ⟨[⟨⟨"Receta de tomate con huevo..."⟩⟩]⟩)).1
      = ⟨200, .receta "Receta de tomate con huevo..."⟩ :=
  ⟨by decide, by decide,
    receta_first_choice_verbatim "huevo, tomate" "sk-test" (by decide)
      (by decide) _ ⟨⟨"Receta de tomate con huevo..."⟩⟩ [] rfl⟩

/-- C2: whenever `ingredientes` is absent or falsy the handler responds 400
with the missing-ingredients error body and issues no outbound call,
whatever the credential and the upstream behaviour. -/
theorem missing_input_400_no_call (ingredientes apiKey : Option String)
    (upstream : OutboundRequest → UpstreamResult)
    (h : jsTruthy ingredientes = false) :
    handleReceta ingredientes apiKey upstream
      = (⟨400, .error "Faltan ingredientes en la solicitud."⟩, none) := by
  unfold handleReceta
  simp [h]

/-- Witness for C2: an absent `ingredientes` field yields 400 and no call. -/
theorem missing_input_400_no_call_witness :
    jsTruthy none = false ∧
    handleReceta none (some "sk-test") (fun _ => .err .request)
      = (⟨400, .error "Faltan ingredientes en la solicitud."⟩, none) :=
  ⟨rfl, missing_input_400_no_call none (some "sk-test") _ rfl⟩

/-- C3, counterexample: with the credential unset AND `ingredientes` empty,
the handler responds 400, not 500, so an unset credential does not yield 500
regardless of input validity. -/
theorem cred_unset_counterexample :
    (handleReceta (some "") none (fun _ => .err .request)).1.status = 400 ∧
    (handleReceta (some "") none (fun _ => .err .request)).1.status ≠ 500 := by
  constructor
  · rfl
  · decide

/-- C3 as amended: if the credential is unset, every request whose
`ingredientes` is truthy yields 500 with the API-key error body and no
outbound call is made; requests with falsy `ingredientes` yield 400 instead,
because the input check runs first. -/
theorem cred_unset_500_no_call (ingredientes apiKey : Option String)
    (upstream : OutboundRequest → UpstreamResult)
    (hing : jsTruthy ingredientes = true) (hkey : jsTruthy apiKey = false) :
    handleReceta ingredientes apiKey upstream
      = (⟨500, .error "Error interno del servidor: API Key no disponible."⟩,
          none) := by
  unfold handleReceta
  simp [hing, hkey]

/-- Witness for amended C3: valid ingredients but an unset credential. -/
theorem cred_unset_500_no_call_witness :
    jsTruthy (some "pan") = true ∧ jsTruthy none = false ∧
    handleReceta (some "pan") none (fun _ => .err .request)
      = (⟨500, .error "Error interno del servidor: API Key no disponible."⟩,
          none) :=
  ⟨by decide, rfl, cred_unset_500_no_call (some "pan") none _ (by decide) rfl⟩

/-- C9: when `ingredientes` is falsy and the credential is unset at the same
time, the input check takes precedence: the response is 400 with the
missing-input error and no outbound call is made. -/
theorem input_check_precedence (ingredientes apiKey : Option String)
    (upstream : OutboundRequest → UpstreamResult)
    (hing : jsTruthy ingredientes = false) (hkey : jsTruthy apiKey = false) :
    handleReceta ingredientes apiKey upstream
      = (⟨400, .error "Faltan ingredientes en la solicitud."⟩, none) := by
  unfold handleReceta
  simp [hing]

/-- Witness for C9: both the ingredients and the credential are absent. -/
theorem input_check_precedence_witness :
    jsTruthy none = false ∧
    handleReceta none none (fun _ => .ok ⟨[]⟩)
      = (⟨400, .error "Faltan ingredientes en la solicitud."⟩, none) :=
  ⟨rfl, input_check_precedence none none _ rfl rfl⟩

/-- C5: when the upstream call fails with an HTTP 401 response, whatever
body that response carries, the handler responds 500 and the error text is
the fixed message pointing at the API key and the account balance, i.e. an
authentication/balance problem. -/
theorem upstream_401_auth_message (ing key : String) (hing : ing ≠ "")
    (hkey : key ≠ "") (data : Option ErrBody)
    (upstream : OutboundRequest → UpstreamResult)
    (hup : upstream (mkOutboundRequest ing key) = .err (.response 401 data)) :
    (handleReceta (some ing) (some key) upstream).1
      = ⟨500, .error "Error de autenticación con la API de OpenRouter. Verifica tu API Key y saldo."⟩ := by
  unfold handleReceta
  simp [jsTruthy_some_of_ne _ hing, jsTruthy_some_of_ne _ hkey, hup,
    processUpstream, classifyError]

/-- Witness for C5: a 401 upstream response with no parsed body. -/
theorem upstream_401_auth_message_witness :
    ("pan" : String) ≠ "" ∧ ("sk-test" : String) ≠ "" ∧
    (handleReceta (some "pan") (some "sk-test")
        (fun _ => .err (.response 401 none))).1
      = ⟨500, .error "Error de autenticación con la API de OpenRouter. Verifica tu API Key y saldo."⟩ :=
  ⟨by decide, by decide,
    upstream_401_auth_message "pan" "sk-test" (by decide) (by decide) none _ rfl⟩

/-- C6: when the upstream call fails with no response received at all, the
handler responds 500 with the connectivity error message. -/
theorem upstream_no_response_connectivity (ing key : String) (hing : ing ≠ "")
    (hkey : key ≠ "") (upstream : OutboundRequest → UpstreamResult)
    (hup : upstream (mkOutboundRequest ing key) = .err .request) :
    (handleReceta (some ing) (some key) upstream).1
      = ⟨500, .error "No se pudo conectar con el servidor de OpenRouter. Revisa la conectividad de tu backend."⟩ := by
  unfold handleReceta
  simp [jsTruthy_some_of_ne _ hing, jsTruthy_some_of_ne _ hkey, hup,
    processUpstream, classifyError]

/-- Witness for C6: a simulated network outage. -/
theorem upstream_no_response_connectivity_witness :
    ("pan" : String) ≠ "" ∧ ("sk-test" : String) ≠ "" ∧
    (handleReceta (some "pan") (some "sk-test") (fun _ => .err .request)).1
      = ⟨500, .error "No se pudo conectar con el servidor de OpenRouter. Revisa la conectividad de tu backend."⟩ :=
  ⟨by decide, by decide,
    upstream_no_response_connectivity "pan" "sk-test" (by decide) (by decide)
      _ rfl⟩

/-- C10: when the upstream call resolves at the HTTP level but its body has
an empty choices array, the property access throws an error that matches
neither the response branch nor the request branch of the catch block, and
the handler still responds 500 with the generic request-error message. -/
theorem empty_choices_500_generic (ing key : String) (hing : ing ≠ "")
    (hkey : key ≠ "") (upstream : OutboundRequest → UpstreamResult)
    (hup : upstream (mkOutboundRequest ing key) = .ok ⟨[]⟩) :
    (handleReceta (some ing) (some key) upstream).1
      = ⟨500, .error ("Error en la solicitud: " ++ typeErrorEmptyChoices)⟩ := by
  unfold handleReceta
  simp [jsTruthy_some_of_ne _ hing, jsTruthy_some_of_ne _ hkey, hup,
    processUpstream, extractReceta, classifyError]

/-- Witness for C10: an upstream success whose choices array is empty. -/
theorem empty_choices_500_generic_witness :
    ("pan" : String) ≠ "" ∧ ("sk-test" : String) ≠ "" ∧
    (handleReceta (some "pan") (some "sk-test") (fun _ => .ok ⟨[]⟩)).1
      = ⟨500, .error ("Error en la solicitud: " ++ typeErrorEmptyChoices)⟩ :=
  ⟨by decide, by decide,
    empty_choices_500_generic "pan" "sk-test" (by decide) (by decide) _ rfl⟩

set_option maxRecDepth 4096 in
/-- C4, counterexample: a failing upstream response with status 401 carries a
structured `error.message`, yet the handler's error text is the fixed
authentication message, which does not contain that upstream message: the
401 branch takes precedence over the structured-body branch. -/
theorem upstream_error_message_embedded_counterexample :
    (handleReceta (some "huevo") (some "sk-test")
        (fun _ => .err (.response 401 (some ⟨some ⟨some "saldo agotado zzz"⟩⟩)))).1
      = ⟨500, .error "Error de autenticación con la API de OpenRouter. Verifica tu API Key y saldo."⟩
    ∧ ¬ textContains
        "Error de autenticación con la API de OpenRouter. Verifica tu API Key y saldo."
        "saldo agotado zzz" := by
  constructor
  · rfl
  · decide

/-- C4 as amended: for every failing upstream response whose status is not
401 and whose error body contains a structured `error.message` field, that
upstream message text occurs verbatim inside the 500 response's error
text. -/
theorem upstream_error_message_embedded (ing key : String) (hing : ing ≠ "")
    (hkey : key ≠ "") (status : Nat) (hst : status ≠ 401) (m : String)
    (upstream : OutboundRequest → UpstreamResult)
    (hup : upstream (mkOutboundRequest ing key)
      = .err (.response status (some ⟨some ⟨some m⟩⟩))) :
    ∃ t, (handleReceta (some ing) (some key) upstream).1 = ⟨500, .error t⟩
      ∧ textContains t m := by
  refine ⟨classifyError (.response status (some ⟨some ⟨some m⟩⟩)), ?_, ?_⟩
  · unfold handleReceta
    simp [jsTruthy_some_of_ne _ hing, jsTruthy_some_of_ne _ hkey, hup,
      processUpstream]
  · by_cases hm : m.isEmpty = true
    · have hm0 : m = "" := (String.isEmpty_iff m).mp hm
      subst hm0
      exact textContains_empty _
    · have hm' : m.isEmpty = false := by
        cases hb : m.isEmpty with
        | false => rfl
        | true => exact absurd hb hm
      rw [classifyError_structured status hst m hm']
      exact textContains_refl_append _ m

/-- Witness for amended C4: a 402 upstream response carrying a structured
message; the message occurs in the 500 error text. -/
theorem upstream_error_message_embedded_witness :
    ("pan" : String) ≠ "" ∧ ("sk-test" : String) ≠ "" ∧ (402 : Nat) ≠ 401 ∧
    (∃ t, (handleReceta (some "pan") (some "sk-test")
        (fun _ => .err (.response 402 (some ⟨some ⟨some "cuota agotada"⟩⟩)))).1
        = ⟨500, .error t⟩ ∧ textContains t "cuota agotada") :=
  ⟨by decide, by decide, by decide,
    upstream_error_message_embedded "pan" "sk-test" (by decide) (by decide)
      402 (by decide) "cuota agotada" _ rfl⟩

/-- C7: for every truthy ingredient input (and a set credential, so that a
call is issued), the prompt is the fixed template with the caller's string
interpolated verbatim between the two fixed parts, and the single user
message of the outbound request carries exactly that text. -/
theorem prompt_template_verbatim (ing key : String) (hing : ing ≠ "")
    (hkey : key ≠ "") (upstream : OutboundRequest → UpstreamResult) :
    prompt ing = promptBefore ++ ing ++ promptAfter ∧
    ∃ outb, (handleReceta (some ing) (some key) upstream).2 = some outb ∧
      outb.messages = [⟨"user", promptBefore ++ ing ++ promptAfter⟩] := by
  refine ⟨rfl, mkOutboundRequest ing key, ?_, rfl⟩
  unfold handleReceta
  simp [jsTruthy_some_of_ne _ hing, jsTruthy_some_of_ne _ hkey]

/-- Witness for C7: the request built for concrete ingredients carries the
interpolated template. -/
theorem prompt_template_verbatim_witness :
    ("huevo, tomate" : String) ≠ "" ∧ ("sk-test" : String) ≠ "" ∧
    (prompt "huevo, tomate" = promptBefore ++ "huevo, tomate" ++ promptAfter ∧
      ∃ outb, (handleReceta (some "huevo, tomate") (some "sk-test")
          (fun _ => .ok ⟨[]⟩)).2 = some outb ∧
        outb.messages
          = [⟨"user", promptBefore ++ "huevo, tomate" ++ promptAfter⟩]) :=
  ⟨by decide, by decide,
    prompt_template_verbatim "huevo, tomate" "sk-test" (by decide) (by decide)
      (fun _ => .ok ⟨[]⟩)⟩

/-- C8: the handler produces exactly one response per request (it is a total
function into responses); its status is always 200, 400 or 500; it is 400
precisely when the input is missing or falsy; and every non-200 response
carries an error body, so every failure category other than missing input
surfaces as 500. -/
theorem failure_status_mapping (ingredientes apiKey : Option String)
    (upstream : OutboundRequest → UpstreamResult) :
    ((handleReceta ingredientes apiKey upstream).1.status = 400
        ↔ jsTruthy ingredientes = false)
    ∧ ((handleReceta ingredientes apiKey upstream).1.status = 200
        ∨ (handleReceta ingredientes apiKey upstream).1.status = 400
        ∨ (handleReceta ingredientes apiKey upstream).1.status = 500)
    ∧ ((handleReceta ingredientes apiKey upstream).1.status ≠ 200
        → ∃ msg, (handleReceta ingredientes apiKey upstream).1.body
            = ResponseBody.error msg) := by
  unfold handleReceta
  cases hin : jsTruthy ingredientes with
  | false => simp
  | true =>
    cases hk : jsTruthy apiKey with
    | false => simp
    | true =>
      simp only [Bool.not_true, Bool.false_eq_true, if_false]
      cases hu : upstream (mkOutboundRequest (ingredientes.getD "")
          (apiKey.getD "")) with
      | ok data =>
        cases data with
        | mk choices =>
          cases choices with
          | nil => simp [processUpstream, extractReceta]
          | cons c cs => simp [processUpstream, extractReceta]
      | err e => simp [processUpstream]

/-- Witness for C8: the mapping evaluated at a concrete failing request. -/
theorem failure_status_mapping_witness :
    ((handleReceta (some "pan") none
        (fun _ => UpstreamResult.err AxiosError.request)).1.status = 400
        ↔ jsTruthy (some "pan") = false)
    ∧ ((handleReceta (some "pan") none
        (fun _ => UpstreamResult.err AxiosError.request)).1.status = 200
        ∨ (handleReceta (some "pan") none
            (fun _ => UpstreamResult.err AxiosError.request)).1.status = 400
        ∨ (handleReceta (some "pan") none
            (fun _ => UpstreamResult.err AxiosError.request)).1.status = 500)
    ∧ ((handleReceta (some "pan") none
        (fun _ => UpstreamResult.err AxiosError.request)).1.status ≠ 200
        → ∃ msg, (handleReceta (some "pan") none
            (fun _ => UpstreamResult.err AxiosError.request)).1.body
            = ResponseBody.error msg) :=
  failure_status_mapping (some "pan") none
    (fun _ => UpstreamResult.err AxiosError.request)

end EasyFood
